import Mathlib

/-!
Shallow embedding of `src/alltrue_scanner/huggingface_onboarding.py`.

Remote calls (`api.run_graphql`, `api.make_api_request`) are collaborators:
each call's outcome is supplied as an explicit input value (a raised exception
becomes an explicit error constructor).  Python strings handled by the config
parser are embedded as `List Char`; identifiers that are merely compared are
embedded as Lean `String`.  Wall-clock time in the poller is sleep-dominated:
the elapsed time observed at the top of iteration `k` is modelled as
`k * poll_interval_secs` (network time abstracted to zero, positive interval
assumed), so the iterations that actually poll are exactly those with
`k * interval < timeout`, i.e. `⌈timeout / interval⌉` of them.
-/

set_option maxRecDepth 10000

namespace Scanner

/-! ## Convergence poller (`_poll_via_graphql`) -/

/-- One discovered resource instance as returned by the GraphQL query.
Only the `id` field is ever read by the polling logic (the query also asks
for `type`, `name`, `registeredAt`, all unused), and `repo.get("id")` may be
absent, hence `Option`. -/
structure Resource where
  id : Option String
deriving DecidableEq

/-- Outcome of one poll iteration's remote work, as seen by the loop body of
`_poll_via_graphql`: the GraphQL call raised (`err`), it succeeded but the
monitored repository id was absent from the results (the `for`/`else` branch,
`not_found`), or the repository was found with its current resource list. -/
inductive PollResult where
  | err
  | not_found
  | found (resources : List Resource)
deriving DecidableEq

/-- Local loop state of `_poll_via_graphql`: `last_resource_count` and
`stable_count`, both initialised to 0. -/
structure PollState where
  last_resource_count : Nat
  stable_count : Nat
deriving DecidableEq

/-- `[r.get("id") for r in resource_instances if r.get("id")]`: ids are kept
only when present and truthy (the empty string is falsy in Python). -/
def resource_ids (resources : List Resource) : List String :=
  resources.filterMap fun r =>
    match r.id with
    | some s => if s = "" then none else some s
    | none => none

/-- One iteration of the body of `_poll_via_graphql` (lines 398-424 plus the
exception handler): on an exception or a missing repository the state is left
unchanged; on a found repository, if `current_count > 0` and equal to
`last_resource_count` the streak is incremented and convergence is declared
once it reaches 3 (returning the ids of that poll); if the non-zero count
changed the streak resets to 0 and the last count is updated; a zero count
leaves the state untouched. -/
def poll_step (st : PollState) (res : PollResult) : PollState ⊕ List String :=
  match res with
  | .err => .inl st
  | .not_found => .inl st
  | .found resources =>
    let current_count := resources.length
    if 0 < current_count then
      if current_count = st.last_resource_count then
        if 3 ≤ st.stable_count + 1 then .inr (resource_ids resources)
        else .inl ⟨current_count, st.stable_count + 1⟩
      else .inl ⟨current_count, 0⟩
    else .inl st

/-- Number of poll iterations that run before the deadline check
`elapsed >= timeout_secs` fires, under the sleep-dominated time model
`elapsed(k) = k * poll_interval_secs`. -/
def num_polls (poll_interval_secs timeout_secs : ℚ) : Nat :=
  Nat.ceil (timeout_secs / poll_interval_secs)

/-- The `while True` loop of `_poll_via_graphql`, driven by the sequence of
per-iteration remote outcomes: iteration `k` first checks the deadline
(no fuel left returns `(false, [])`, line 379-382) and otherwise processes
`seq k` with `poll_step`. -/
def run_from (seq : Nat → PollResult) : Nat → Nat → PollState → Bool × List String
  | 0, _, _ => (false, [])
  | fuel + 1, k, st =>
    match poll_step st (seq k) with
    | .inr ids => (true, ids)
    | .inl st2 => run_from seq fuel (k + 1) st2

/-- `_poll_via_graphql`: run the loop from the initial state `⟨0, 0⟩` with
the number of iterations the deadline admits. -/
def poll_via_graphql (seq : Nat → PollResult) (poll_interval_secs timeout_secs : ℚ) :
    Bool × List String :=
  run_from seq (num_polls poll_interval_secs timeout_secs) 0 ⟨0, 0⟩

/-- Loop state of `_poll_via_graphql` just before iteration `k` (if an earlier
iteration already converged the value is irrelevant; we keep the state). -/
def state_at (seq : Nat → PollResult) : Nat → PollState
  | 0 => ⟨0, 0⟩
  | k + 1 =>
    match poll_step (state_at seq k) (seq k) with
    | .inl st => st
    | .inr _ => state_at seq k

/-- Resource list with `n` distinct ids tagged by the poll index `k`, used to
observe at which poll the poller converged. -/
def mk_resources (k n : Nat) : List Resource :=
  (List.range n).map fun i => ⟨some (toString k ++ "-" ++ toString i)⟩

/-- The count sequence `[0,0,2,2,2,5,5,5,5]` of the spec's poller example,
continued at 5. -/
def counts_c1 (k : Nat) : Nat := if k < 2 then 0 else if k < 5 then 2 else 5

/-- Poll outcomes realising `counts_c1`, with per-poll-distinct ids. -/
def seq_c1 (k : Nat) : PollResult := .found (mk_resources k (counts_c1 k))

/-- Alternating counts `2,0,2,0,...`: no three consecutive equal non-zero
readings ever occur. -/
def counts_alt (k : Nat) : Nat := if k % 2 = 0 then 2 else 0

/-- Poll outcomes realising `counts_alt`. -/
def seq_alt (k : Nat) : PollResult := .found (mk_resources k (counts_alt k))

/-- Poll outcomes that always report zero resources. -/
def seq_zero (_ : Nat) : PollResult := .found []

/-- Poll outcomes where every remote call raises. -/
def seq_err (_ : Nat) : PollResult := .err

/-- The claim's phrase "a stable run of length 3 of a non-zero count is
observed": three consecutive readings of the same non-zero count occur among
the polls `0, ..., n-1`. -/
def has_stable_run_of_three (counts : Nat → Nat) (n : Nat) : Prop :=
  ∃ i < n, i + 2 < n ∧ counts i ≠ 0 ∧ counts i = counts (i + 1) ∧
    counts (i + 1) = counts (i + 2)

/-! ## Registration resolver (`_find_existing_repository`,
`_create_repository_config`) -/

/-- One repository record returned by the `FindRepository` GraphQL query;
every field is read with `.get`, hence `Option`.  `project_id` is the `id`
of the nested `project` object when that object is present. -/
structure RepoEntry where
  id : Option String
  name : Option String
  organization : Option String
  vcs : Option String
  project_id : Option String
deriving DecidableEq

/-- The matching loop of `_find_existing_repository` (lines 65-92): scan the
returned repositories in order; on an exact
(organization, name, vcs="huggingface_hub") match, return its `id` as soon as
the project association is acceptable (caller gave no project, projects equal,
or the record has no project); otherwise keep scanning. -/
def find_repo_loop (organization repo_name : String) (project_id : Option String) :
    List RepoEntry → Option String
  | [] => none
  | r :: rest =>
    if r.organization = some organization ∧ r.name = some repo_name ∧
        r.vcs = some "huggingface_hub" then
      if project_id = none ∨ r.project_id = project_id ∨ r.project_id = none then r.id
      else find_repo_loop organization repo_name project_id rest
    else find_repo_loop organization repo_name project_id rest

/-- `_find_existing_repository`: the whole body is wrapped in
`try/except`, so a raised GraphQL query (`none` input) yields `None`
(lines 94-96); a successful query runs the matching loop. -/
def find_existing_repository (organization repo_name : String) (project_id : Option String) :
    Option (List RepoEntry) → Option String
  | none => none
  | some repos => find_repo_loop organization repo_name project_id repos

/-- Spec-side acceptance predicate, written from the spec's words: the first
candidate matching (organization, repoName, vcs=huggingface_hub) "whose
associated project is absent, equal to `projectId`, or when `projectId` is
absent from the caller request". -/
def acceptable_per_spec (organization repo_name : String) (project_id : Option String)
    (r : RepoEntry) : Bool :=
  decide ((r.organization = some organization ∧ r.name = some repo_name ∧
      r.vcs = some "huggingface_hub") ∧
    (r.project_id = none ∨ r.project_id = project_id ∨ project_id = none))

/-- Outcome of the create POST in `_create_repository_config`: a 2xx response
whose body may or may not carry `repository_config_id`, a
`requests.HTTPError` carrying a status code, or any other exception. -/
inductive CreateCallResult where
  | ok (repository_config_id : Option String)
  | http_error (status_code : Nat)
  | other_error
deriving DecidableEq

/-- Python truthiness coercion of an optional string, as performed by the
source's `if x:` guards before returning an id: `None` and the empty string
are falsy and collapse to `None`. -/
def truthy_id : Option String → Option String
  | some s => if s = "" then none else some s
  | none => none

/-- `_create_repository_config` (lines 99-189).  `queries k` is the result of
the `k`-th invocation of `_find_existing_repository`'s GraphQL query; the
second component of the result counts how many such lookups were made.
Flow: proactive lookup, returning its id only when truthy (`if
existing_repo_id:`, line 131); otherwise create, returning the response's
`repository_config_id` only when truthy (`if repo_config_id:`, line 158) and
`None` otherwise; on a 409 re-run the lookup exactly once and return its
truthy finding or `None` (`if existing_repo_id:`, line 176); on any other
HTTP status or any other exception return `None` with no further lookup. -/
def create_repository_config (organization repo_name project_id : String)
    (queries : Nat → Option (List RepoEntry)) (create_res : CreateCallResult) :
    Option String × Nat :=
  match truthy_id (find_existing_repository organization repo_name (some project_id)
      (queries 0)) with
  | some rid => (some rid, 1)
  | none =>
    match create_res with
    | .ok rid => (truthy_id rid, 1)
    | .http_error s =>
      if s = 409 then
        (truthy_id (find_existing_repository organization repo_name (some project_id)
          (queries 1)), 2)
      else (none, 1)
    | .other_error => (none, 1)

/-! ## Job start (`_start_scan_job`) -/

/-- Outcome of the start-job POST: a transport-level success carrying the
response's `job_id` and `status` fields (each possibly absent), or a raised
exception. -/
inductive StartJobResult where
  | ok (job_id : Option String) (status : Option String)
  | exn
deriving DecidableEq

/-- `_start_scan_job` (lines 267-315): `True` exactly when the response's
`status` field equals `"RUNNING"`; any other status, a missing status, or an
exception yields `False`. -/
def start_scan_job : StartJobResult → Bool
  | .ok _ status => status == some "RUNNING"
  | .exn => false

/-! ## Batch driver (`onboard_huggingface_models`) -/

/-- One entry of the `models` list: every field is read with `.get`, hence
`Option` (Python's falsiness of `""` matters for the skip check). -/
structure ModelSpec where
  organization_id : Option String
  repo_name : Option String
  api_key : Option String
  revision : Option String
deriving DecidableEq

/-- Outcomes of the remote collaborators for one spec's processing iteration:
the resolved repository config (`_create_repository_config`), the pre-scan
resource read (`_query_discovered_resources`), the job creation
(`_create_scan_job`), the job start (`_start_scan_job`), the poll outcome
(`_poll_via_graphql`), and the post-timeout final read. -/
structure RepoEnv where
  repo_config : Option String
  existing_resources : List String
  scan_job : Option String
  started : Bool
  poll_outcome : Bool × List String
  final_resources : List String
deriving DecidableEq

/-- Python falsiness of an optional string: absent or empty. -/
def falsy_str : Option String → Bool
  | none => true
  | some s => s == ""

/-- Body of the `for model in models` loop of `onboard_huggingface_models`
(lines 555-644): the resource ids this spec contributes, `[]` whenever a
`continue` fires (missing fields, failed resolution, failed job creation or
start, or a converged-but-empty poll). -/
def process_model (model : ModelSpec) (env : RepoEnv) : List String :=
  if falsy_str model.organization_id || falsy_str model.repo_name then []
  else
    match env.repo_config with
    | none => []
    | some _ =>
      if env.existing_resources ≠ [] then env.existing_resources
      else
        match env.scan_job with
        | none => []
        | some _ =>
          if !env.started then []
          else
            match env.poll_outcome with
            | (true, ids) => if ids ≠ [] then ids else []
            | (false, _) => env.final_resources

/-- `onboard_huggingface_models`: process the specs strictly sequentially,
extending the accumulator with each spec's contribution (an empty `models`
list returns `[]` immediately). -/
def onboard_huggingface_models : List (ModelSpec × RepoEnv) → List String
  | [] => []
  | (m, e) :: rest => process_model m e ++ onboard_huggingface_models rest

/-! ## Spec parser (`parse_huggingface_models_from_config`, simple format) -/

/-- Python strings, embedded character by character for the parser. -/
abbrev Str := List Char

/-- The whitespace set of Python's `str.strip()`. -/
def is_py_space (c : Char) : Bool :=
  c == ' ' || c == '\t' || c == '\n' || c == '\r' || c == '\x0b' || c == '\x0c'

/-- Python `s.strip()`. -/
def py_strip (l : Str) : Str :=
  ((l.dropWhile is_py_space).reverse.dropWhile is_py_space).reverse

/-- Python `s.split(sep, 1)` when the separator occurs: everything before the
first occurrence and everything after it; `none` when it does not occur. -/
def split_once (c : Char) : Str → Option (Str × Str)
  | [] => none
  | x :: xs =>
    if x = c then some ([], xs)
    else (split_once c xs).map fun p => (x :: p.1, p.2)

/-- Python `s.split(",")`. -/
def split_all (c : Char) : Str → List Str
  | [] => [[]]
  | x :: xs =>
    match split_all c xs with
    | [] => [[]]
    | h :: t => if x = c then [] :: h :: t else (x :: h) :: t

/-- One parsed repository entry of the simple config format. -/
structure ParsedModel where
  organization_id : Str
  repo_name : Str
  revision : Str
deriving DecidableEq

/-- The default revision `"main"`. -/
def main_revision : Str := "main".toList

/-- Body of the simple-format loop of `parse_huggingface_models_from_config`
(lines 687-713) for one comma-separated item: strip it, skip it when empty or
when it has no `/`, otherwise split once on `/`, strip both parts, and when
the repo part contains `@` split it once more into name and revision
(each stripped), defaulting the revision to `"main"`.  The inner `none` arms
are unreachable: `split_once` succeeds exactly when the membership test that
guards it does. -/
def parse_item (raw : Str) : Option ParsedModel :=
  if py_strip raw = [] then none
  else if '/' ∈ py_strip raw then
    match split_once '/' (py_strip raw) with
    | some (p0, p1) =>
      if '@' ∈ py_strip p1 then
        match split_once '@' (py_strip p1) with
        | some (nm, rv) => some ⟨py_strip p0, py_strip nm, py_strip rv⟩
        | none => none
      else some ⟨py_strip p0, py_strip p1, main_revision⟩
    | none => none
  else none

/-- The simple-format branch of `parse_huggingface_models_from_config`:
split the config string on commas and keep the items that parse. -/
def parse_simple_models (s : Str) : List ParsedModel :=
  (split_all ',' s).filterMap parse_item

/-! ## Concrete inputs for witnesses -/

/-- Lookup sequence in which every GraphQL query raises. -/
def queries_none : Nat → Option (List RepoEntry) := fun _ => none

/-- A registration record that matches ("org", "repo") with no project
association. -/
def repo_entry1 : RepoEntry :=
  ⟨some "rid", some "repo", some "org", some "huggingface_hub", none⟩

/-- Lookup sequence realising the 409 race: the proactive query raises, the
re-lookup after the conflict finds `repo_entry1`. -/
def queries_conflict : Nat → Option (List RepoEntry) :=
  fun k => if k = 0 then none else some [repo_entry1]

/-- A well-formed spec. -/
def spec0 : ModelSpec := ⟨some "o", some "r", none, some "main"⟩

/-- A spec with a missing organization. -/
def spec_bad : ModelSpec := ⟨none, some "r", none, none⟩

/-- A well-formed spec for the tail of a batch. -/
def spec_good : ModelSpec := ⟨some "g", some "m", none, none⟩

/-- An environment in which the registration resolution already fails. -/
def env0 : RepoEnv := ⟨none, [], none, false, (false, []), []⟩

/-- An environment in which the job is created but fails to start. -/
def env1 : RepoEnv := ⟨some "rc", [], some "job", false, (false, []), []⟩

/-- An environment in which everything succeeds and the poll converges. -/
def env_good : RepoEnv := ⟨some "rc", [], some "job", true, (true, ["res1"]), []⟩
/-! ## Helper lemmas -/

/-- With a 10 second interval and a 600 second deadline, 60 polls run before
the deadline check fires. -/
theorem num_polls_600 : num_polls 10 600 = 60 := by
  unfold num_polls
  rw [Nat.ceil_eq_iff (by norm_num)]
  norm_num

/-- With a 10 second interval and a 70 second deadline, 7 polls run before
the deadline check fires. -/
theorem num_polls_70 : num_polls 10 70 = 7 := by
  unfold num_polls
  rw [Nat.ceil_eq_iff (by norm_num)]
  norm_num

/-- If no iteration in the window converges, the loop runs out of fuel and
reports the timeout outcome `(false, [])`. -/
theorem run_from_no_convergence (seq : Nat → PollResult) :
    ∀ (fuel k : Nat),
      (∀ j, k ≤ j → j < k + fuel → (poll_step (state_at seq j) (seq j)).isLeft = true) →
      run_from seq fuel k (state_at seq k) = (false, []) := by
  intro fuel
  induction fuel with
  | zero => intro k _; rfl
  | succ n ih =>
    intro k h
    have h0 : (poll_step (state_at seq k) (seq k)).isLeft = true :=
      h k le_rfl (by omega)
    obtain ⟨st2, hst2⟩ : ∃ st2, poll_step (state_at seq k) (seq k) = .inl st2 := by
      cases hp : poll_step (state_at seq k) (seq k) with
      | inl s => exact ⟨s, rfl⟩
      | inr ids => rw [hp] at h0; simp [Sum.isLeft] at h0
    have hstate : state_at seq (k + 1) = st2 := by
      unfold state_at
      rw [hst2]
    have hrest := ih (k + 1) (fun j hj1 hj2 => h j (by omega) (by omega))
    rw [hstate] at hrest
    unfold run_from
    rw [hst2]
    exact hrest

/-- Splitting once at a separator recovers the two surrounding pieces when
the first piece avoids the separator. -/
theorem split_once_append (c : Char) (a b : Str) (h : c ∉ a) :
    split_once c (a ++ c :: b) = some (a, b) := by
  induction a with
  | nil => simp [split_once]
  | cons x xs ih =>
    have hx : ¬ x = c := fun heq => h (heq ▸ List.mem_cons_self x xs)
    have hxs : c ∉ xs := fun hm => h (List.mem_cons_of_mem _ hm)
    simp [split_once, hx, ih hxs]

/-- Membership survives `dropWhile` backwards. -/
theorem mem_of_mem_dropWhile (p : Char → Bool) (x : Char) :
    ∀ l : Str, x ∈ l.dropWhile p → x ∈ l := by
  intro l
  induction l with
  | nil => simp
  | cons a as ih =>
    intro h
    by_cases hp : p a = true
    · rw [List.dropWhile_cons_of_pos hp] at h
      exact List.mem_cons_of_mem _ (ih h)
    · rw [List.dropWhile_cons_of_neg (by simpa using hp)] at h
      exact h

/-- Stripping a string never introduces characters. -/
theorem mem_of_mem_py_strip (x : Char) (l : Str) (h : x ∈ py_strip l) : x ∈ l := by
  unfold py_strip at h
  rw [List.mem_reverse] at h
  have h2 := mem_of_mem_dropWhile _ _ _ h
  rw [List.mem_reverse] at h2
  exact mem_of_mem_dropWhile _ _ _ h2

/-! ## Claims -/

/-- C1 (counterexample): on the count sequence `[0,0,2,2,2,5,5,5,5,...]` with
interval 10 and deadline 600, `_poll_via_graphql` does not converge at index 4
with count 2 (which would return the two ids of poll 4): the stability counter
counts repeats of the previous reading, so the three 2s at indices 2-4 only
reach a streak of 2, and the poller instead converges at index 8 with count 5,
returning the five ids of poll 8. -/
theorem c1_convergence_counterexample :
    poll_via_graphql seq_c1 10 600 = (true, ["8-0", "8-1", "8-2", "8-3", "8-4"])
    ∧ poll_via_graphql seq_c1 10 600 ≠ (true, ["4-0", "4-1"]) := by
  unfold poll_via_graphql
  rw [num_polls_600]
  exact ⟨by decide, by decide⟩

/-- C1 (amended): for the poll sequence of resource counts
`[0,0,2,2,2,5,5,5,5,...]` with stability threshold 3, the convergence poller
declares convergence when the count has repeated its immediately preceding
value on 3 consecutive polls: it converges at index 8 with count 5 and returns
the resource ids seen at that poll. -/
theorem c1_convergence_amended :
    poll_via_graphql seq_c1 10 600 = (true, ["8-0", "8-1", "8-2", "8-3", "8-4"]) := by
  unfold poll_via_graphql
  rw [num_polls_600]
  decide

/-- C2 (counterexample): in the state with `lastCount = 2` and
`stableStreak = 1`, observing `currentCount = 0` leaves the state completely
unchanged; it does not reset the streak to 0 nor update `lastCount` to 0 as
the claim's "including a change to 0" requires. -/
theorem c2_update_rule_counterexample :
    poll_step ⟨2, 1⟩ (.found []) = .inl ⟨2, 1⟩
    ∧ poll_step ⟨2, 1⟩ (.found []) ≠ .inl ⟨0, 0⟩ := by
  exact ⟨by decide, by decide⟩

/-- C2 (amended): for every poll iteration and observed resource list, if
`currentCount > 0` and `currentCount = lastCount` then `stableStreak` is
incremented (converging when it reaches 3); if `currentCount > 0` and it
differs from `lastCount` then `stableStreak` resets to 0 and `lastCount` is
updated; and if `currentCount = 0` the state is left unchanged. -/
theorem c2_update_rule_amended : ∀ (st : PollState) (rs : List Resource),
    (0 < rs.length → rs.length = st.last_resource_count → st.stable_count + 1 < 3 →
      poll_step st (.found rs) = .inl ⟨rs.length, st.stable_count + 1⟩)
    ∧ (0 < rs.length → rs.length = st.last_resource_count → 3 ≤ st.stable_count + 1 →
      poll_step st (.found rs) = .inr (resource_ids rs))
    ∧ (0 < rs.length → rs.length ≠ st.last_resource_count →
      poll_step st (.found rs) = .inl ⟨rs.length, 0⟩)
    ∧ (rs.length = 0 → poll_step st (.found rs) = .inl st) := by
  intro st rs
  refine ⟨?_, ?_, ?_, ?_⟩
  · intro h1 h2 h3
    simp only [poll_step]
    rw [if_pos h1, if_pos h2, if_neg (by omega)]
  · intro h1 h2 h3
    simp only [poll_step]
    rw [if_pos h1, if_pos h2, if_pos h3]
  · intro h1 h2
    simp only [poll_step]
    rw [if_pos h1, if_neg h2]
  · intro h1
    simp only [poll_step]
    rw [if_neg (by omega)]

/-- C2 (witness): the four update cases at concrete states. -/
theorem c2_update_rule_witness :
    poll_step ⟨1, 0⟩ (.found [⟨some "a"⟩]) = .inl ⟨1, 1⟩
    ∧ poll_step ⟨1, 2⟩ (.found [⟨some "a"⟩]) = .inr ["a"]
    ∧ poll_step ⟨5, 2⟩ (.found [⟨some "a"⟩]) = .inl ⟨1, 0⟩
    ∧ poll_step ⟨2, 1⟩ (.found []) = .inl ⟨2, 1⟩ :=
  ⟨(c2_update_rule_amended ⟨1, 0⟩ [⟨some "a"⟩]).1 (by decide) (by decide) (by decide),
   (c2_update_rule_amended ⟨1, 2⟩ [⟨some "a"⟩]).2.1 (by decide) (by decide) (by decide),
   (c2_update_rule_amended ⟨5, 2⟩ [⟨some "a"⟩]).2.2.1 (by decide) (by decide),
   (c2_update_rule_amended ⟨2, 1⟩ []).2.2.2 (by decide)⟩

/-- C3: in `_create_repository_config`, when the proactive lookup yields
nothing usable and the create call fails with a 409 conflict, the
existing-registration lookup is re-run exactly once (two lookups in total)
and the truthiness-guarded result of that re-lookup is what is returned: a
found (non-empty) id is returned without raising, and when the re-lookup
finds nothing the resolution fails with `None`; any create failure with a
status code other than 409 fails immediately with no further lookup. -/
theorem c3_conflict_retry : ∀ (organization repo_name project_id : String)
    (queries : Nat → Option (List RepoEntry)) (rid : String) (s : Nat),
    truthy_id (find_existing_repository organization repo_name (some project_id)
      (queries 0)) = none →
    (create_repository_config organization repo_name project_id queries (.http_error 409)
       = (truthy_id (find_existing_repository organization repo_name (some project_id)
           (queries 1)), 2))
    ∧ (find_existing_repository organization repo_name (some project_id) (queries 1)
         = some rid → rid ≠ "" →
       create_repository_config organization repo_name project_id queries (.http_error 409)
         = (some rid, 2))
    ∧ (find_existing_repository organization repo_name (some project_id) (queries 1) = none →
       create_repository_config organization repo_name project_id queries (.http_error 409)
         = (none, 2))
    ∧ (s ≠ 409 →
       create_repository_config organization repo_name project_id queries (.http_error s)
         = (none, 1)) := by
  intro o n p q rid s h
  have h409 : create_repository_config o n p q (.http_error 409)
      = (truthy_id (find_existing_repository o n (some p) (q 1)), 2) := by
    unfold create_repository_config
    rw [h]
    rfl
  refine ⟨h409, ?_, ?_, ?_⟩
  · intro h1 h2
    rw [h409, h1]
    simp [truthy_id, h2]
  · intro h1
    rw [h409, h1]
    rfl
  · intro hs
    unfold create_repository_config
    rw [h]
    simp [hs]

/-- C3 (witness): every conflict branch at concrete inputs: a raising
proactive lookup, a re-lookup that finds a registration (its id returned),
a re-lookup that finds nothing (failure), and a non-409 create failure. -/
theorem c3_conflict_retry_witness :
    truthy_id (find_existing_repository "org" "repo" (some "proj") (queries_conflict 0)) = none
    ∧ create_repository_config "org" "repo" "proj" queries_conflict (.http_error 409)
        = (truthy_id (find_existing_repository "org" "repo" (some "proj")
            (queries_conflict 1)), 2)
    ∧ create_repository_config "org" "repo" "proj" queries_conflict (.http_error 409)
        = (some "rid", 2)
    ∧ create_repository_config "org" "repo" "proj" queries_none (.http_error 409) = (none, 2)
    ∧ create_repository_config "org" "repo" "proj" queries_none (.http_error 500) = (none, 1) :=
  ⟨rfl,
   (c3_conflict_retry "org" "repo" "proj" queries_conflict "rid" 500 rfl).1,
   (c3_conflict_retry "org" "repo" "proj" queries_conflict "rid" 500 rfl).2.1
     (by decide) (by decide),
   (c3_conflict_retry "org" "repo" "proj" queries_none "rid" 500 rfl).2.2.1 rfl,
   (c3_conflict_retry "org" "repo" "proj" queries_none "rid" 500 rfl).2.2.2 (by decide)⟩

/-- C4: the matching loop of `_find_existing_repository` returns exactly the
id of the first candidate in list order that matches
(organization, repoName, vcs=huggingface_hub) and whose associated project is
absent, equal to the caller's projectId, or whose caller supplied no
projectId; in particular a match with no project association is accepted even
when a project id was specified. -/
theorem c4_first_acceptable_match : ∀ (organization repo_name : String)
    (project_id : Option String) (repos : List RepoEntry),
    find_repo_loop organization repo_name project_id repos
      = (repos.find? (acceptable_per_spec organization repo_name project_id)).bind
          RepoEntry.id := by
  intro o n p repos
  induction repos with
  | nil => rfl
  | cons r rest ih =>
    by_cases h1 : (r.organization = some o ∧ r.name = some n ∧ r.vcs = some "huggingface_hub")
    · by_cases h2 : (p = none ∨ r.project_id = p ∨ r.project_id = none)
      · have hp : acceptable_per_spec o n p r = true := by
          unfold acceptable_per_spec
          apply decide_eq_true
          exact ⟨h1, by tauto⟩
        rw [List.find?_cons_of_pos _ hp]
        unfold find_repo_loop
        rw [if_pos h1, if_pos h2]
        rfl
      · have hp : acceptable_per_spec o n p r = false := by
          apply decide_eq_false
          intro hc
          exact h2 (by tauto)
        rw [List.find?_cons_of_neg _ (by simp [hp])]
        unfold find_repo_loop
        rw [if_pos h1, if_neg h2]
        exact ih
    · have hp : acceptable_per_spec o n p r = false := by
        apply decide_eq_false
        intro hc
        exact h1 hc.1
      rw [List.find?_cons_of_neg _ (by simp [hp])]
      unfold find_repo_loop
      rw [if_neg h1]
      exact ih

/-- C5: `_start_scan_job` reports success exactly when the response carried
`status = "RUNNING"`; every other status value, a missing status, and a raised
call all yield failure. -/
theorem c5_start_iff_running : ∀ r : StartJobResult,
    start_scan_job r = true ↔ ∃ j, r = .ok j (some "RUNNING") := by
  intro r
  cases r with
  | ok j s => simp [start_scan_job]
  | exn => simp [start_scan_job]

/-- C6 (counterexample): with alternating counts `2,0,2,0,2,0,2` no stable
run of length 3 of a non-zero count ever occurs among the 7 polls that fit a
70 second deadline at a 10 second interval, yet the poller converges (zero
readings leave the streak untouched) and returns `(true, ...)`, not
`(false, [])`. -/
theorem c6_deadline_counterexample :
    ¬ has_stable_run_of_three counts_alt (num_polls 10 70)
    ∧ poll_via_graphql seq_alt 10 70 = (true, ["6-0", "6-1"])
    ∧ poll_via_graphql seq_alt 10 70 ≠ (false, []) := by
  unfold poll_via_graphql has_stable_run_of_three
  rw [num_polls_70]
  exact ⟨by decide, by decide, by decide⟩

/-- C6 (amended): for every poll sequence in which the stability streak, as
updated by the code, never triggers convergence at any iteration before the
deadline, the poller returns `(false, [])` once elapsed time reaches the
deadline, regardless of the resource count observed at that moment. -/
theorem c6_deadline_amended : ∀ (seq : Nat → PollResult) (i t : ℚ),
    (∀ k, k < num_polls i t → (poll_step (state_at seq k) (seq k)).isLeft = true) →
    poll_via_graphql seq i t = (false, []) := by
  intro seq i t h
  exact run_from_no_convergence seq (num_polls i t) 0 (fun j hj1 hj2 => h j (by omega))

/-- C6 (witness): a sequence that always reports zero resources never
converges and times out with `(false, [])`. -/
theorem c6_deadline_witness :
    (∀ k, k < num_polls 10 600 → (poll_step (state_at seq_zero k) (seq_zero k)).isLeft = true)
    ∧ poll_via_graphql seq_zero 10 600 = (false, []) :=
  ⟨by rw [num_polls_600]; decide,
   c6_deadline_amended seq_zero 10 600 (by rw [num_polls_600]; decide)⟩

/-- C7: a remote-call failure inside a poll iteration is swallowed, not
propagated: the step on an error leaves the state unchanged, and a loop
iteration whose poll raised simply consumes its one poll-interval slot and
retries from the same state on the same cadence; the poller itself is a total
function and never raises. -/
theorem c7_errors_swallowed : ∀ (seq : Nat → PollResult) (fuel k : Nat) (st : PollState),
    poll_step st .err = .inl st
    ∧ (seq k = .err → run_from seq (fuel + 1) k st = run_from seq fuel (k + 1) st) := by
  intro seq fuel k st
  refine ⟨rfl, fun h => ?_⟩
  conv_lhs => rw [run_from, h]
  rfl

/-- C7 (witness): the error-swallowing step and the retry cadence at a
concrete state on an always-raising sequence. -/
theorem c7_errors_swallowed_witness :
    poll_step ⟨2, 1⟩ .err = .inl ⟨2, 1⟩
    ∧ run_from seq_err 1 0 ⟨0, 0⟩ = run_from seq_err 0 1 ⟨0, 0⟩ :=
  ⟨(c7_errors_swallowed seq_err 0 0 ⟨2, 1⟩).1,
   (c7_errors_swallowed seq_err 0 0 ⟨0, 0⟩).2 rfl⟩

/-- C8: the batch driver processes specs sequentially and isolates per-spec
failures: a spec missing organization or repoName contributes nothing, as do
specs whose registration resolution fails or whose job creation or start
fails; a spec contributing nothing never disturbs the rest of the batch, so a
later valid spec's resources still appear; the return value is always a
(possibly empty) list by construction. -/
theorem c8_batch_isolation :
    (∀ m e rest, onboard_huggingface_models ((m, e) :: rest)
       = process_model m e ++ onboard_huggingface_models rest)
    ∧ (∀ (m : ModelSpec) (e : RepoEnv), m.organization_id = none ∨ m.repo_name = none →
       process_model m e = [])
    ∧ (∀ (m : ModelSpec) (e : RepoEnv), e.repo_config = none → process_model m e = [])
    ∧ (∀ (m : ModelSpec) (e : RepoEnv), e.existing_resources = [] →
       e.scan_job = none ∨ e.started = false → process_model m e = [])
    ∧ (∀ m e rest, process_model m e = [] →
       onboard_huggingface_models ((m, e) :: rest) = onboard_huggingface_models rest) := by
  refine ⟨fun m e rest => rfl, ?_, ?_, ?_, ?_⟩
  · intro m e h
    unfold process_model
    rcases h with h | h <;> rw [h] <;> simp [falsy_str]
  · intro m e h
    unfold process_model
    rw [h]
    split
    · rfl
    · rfl
  · intro m e h1 h2
    obtain ⟨rc, ex, sj, st, po, fr⟩ := e
    simp only at h1 h2
    subst h1
    unfold process_model
    split
    · rfl
    · simp only
      cases rc with
      | none => rfl
      | some rcv =>
        simp only [ne_eq, not_true_eq_false, if_false]
        rcases h2 with h | h
        · subst h
          rfl
        · subst h
          cases sj with
          | none => rfl
          | some sjv => simp
  · intro m e rest h
    show process_model m e ++ onboard_huggingface_models rest = onboard_huggingface_models rest
    rw [h]
    rfl

/-- C8 (witness): each isolation case at concrete specs and environments,
including a batch where an invalid first spec leaves the second intact. -/
theorem c8_batch_isolation_witness :
    onboard_huggingface_models [(spec_bad, env0)]
      = process_model spec_bad env0 ++ onboard_huggingface_models []
    ∧ process_model spec_bad env0 = []
    ∧ process_model spec0 env0 = []
    ∧ process_model spec0 env1 = []
    ∧ onboard_huggingface_models [(spec_bad, env0), (spec_good, env_good)]
        = onboard_huggingface_models [(spec_good, env_good)] :=
  ⟨c8_batch_isolation.1 spec_bad env0 [],
   c8_batch_isolation.2.1 spec_bad env0 (Or.inl rfl),
   c8_batch_isolation.2.2.1 spec0 env0 rfl,
   c8_batch_isolation.2.2.2.1 spec0 env1 rfl (Or.inr rfl),
   c8_batch_isolation.2.2.2.2 spec_bad env0 [(spec_good, env_good)] rfl⟩

/-- C9: a comma-separated token of the form `org/repo` parses to an entry
preserving organization and repoName exactly with the default revision
`"main"`; a token `org/repo@rev` additionally retains the revision in the
parsed entry; a token lacking a `/` is skipped, producing no entry and no
failure; and the revision field never alters the processing of a spec. -/
theorem c9_parse_tokens :
    (∀ org repo : Str, '/' ∉ org → '@' ∉ repo →
      py_strip org = org → py_strip repo = repo →
      py_strip (org ++ '/' :: repo) = org ++ '/' :: repo →
      parse_item (org ++ '/' :: repo) = some ⟨org, repo, main_revision⟩)
    ∧ (∀ org repo rev : Str, '/' ∉ org → '@' ∉ repo →
      py_strip org = org → py_strip repo = repo → py_strip rev = rev →
      py_strip (repo ++ '@' :: rev) = repo ++ '@' :: rev →
      py_strip (org ++ '/' :: (repo ++ '@' :: rev)) = org ++ '/' :: (repo ++ '@' :: rev) →
      parse_item (org ++ '/' :: (repo ++ '@' :: rev)) = some ⟨org, repo, rev⟩)
    ∧ (∀ t : Str, '/' ∉ t → parse_item t = none)
    ∧ (∀ (m : ModelSpec) (e : RepoEnv) (rv : Option String),
        process_model { m with revision := rv } e = process_model m e) := by
  refine ⟨?_, ?_, ?_, ?_⟩
  · intro org repo h1 h2 hso hsr hst
    have hmem : '/' ∈ org ++ '/' :: repo := by simp
    unfold parse_item
    rw [hst, if_neg (List.ne_nil_of_mem hmem), if_pos hmem,
      split_once_append '/' org repo h1]
    simp only [hsr, hso]
    rw [if_neg h2]
  · intro org repo rev h1 h2 hso hsr hsv hsr2 hst
    have hmem : '/' ∈ org ++ '/' :: (repo ++ '@' :: rev) := by simp
    have hmem2 : '@' ∈ repo ++ '@' :: rev := by simp
    unfold parse_item
    rw [hst, if_neg (List.ne_nil_of_mem hmem), if_pos hmem,
      split_once_append '/' org _ h1]
    simp only [hsr2]
    rw [if_pos hmem2, split_once_append '@' repo rev h2]
    simp only [hso, hsr, hsv]
  · intro t h
    have h2 : '/' ∉ py_strip t := fun hm => h (mem_of_mem_py_strip _ _ hm)
    unfold parse_item
    by_cases he : py_strip t = []
    · rw [if_pos he]
    · rw [if_neg he, if_neg h2]
  · intro m e rv
    cases m
    rfl

/-- C9 (witness): the three token shapes and the revision-invariance at
concrete inputs. -/
theorem c9_parse_tokens_witness :
    parse_item ("org".toList ++ '/' :: "repo".toList)
      = some ⟨"org".toList, "repo".toList, main_revision⟩
    ∧ parse_item ("org".toList ++ '/' :: ("repo".toList ++ '@' :: "dev".toList))
      = some ⟨"org".toList, "repo".toList, "dev".toList⟩
    ∧ parse_item "norepo".toList = none
    ∧ process_model { spec0 with revision := some "x" } env0 = process_model spec0 env0 :=
  ⟨c9_parse_tokens.1 "org".toList "repo".toList (by decide) (by decide) (by decide)
     (by decide) (by decide),
   c9_parse_tokens.2.1 "org".toList "repo".toList "dev".toList (by decide) (by decide)
     (by decide) (by decide) (by decide) (by decide) (by decide),
   c9_parse_tokens.2.2.1 "norepo".toList (by decide),
   c9_parse_tokens.2.2.2 spec0 env0 (some "x")⟩

/-- C10: when the existing-registration lookup's remote query raises, the
lookup returns `None` (NotFound) instead of propagating the error, and the
resolver consequently proceeds to the create path: with both lookups raising,
the resolution's outcome after the single pre-check lookup is the create
response's truthiness-guarded id (the new id when one is present and
non-empty, `None` otherwise). -/
theorem c10_lookup_error_not_found : ∀ (organization repo_name : String)
    (project_id : Option String) (project_id2 : String) (rid : Option String),
    find_existing_repository organization repo_name project_id none = none
    ∧ create_repository_config organization repo_name project_id2 (fun _ => none)
        (.ok rid) = (truthy_id rid, 1) := by
  intro o n p p2 rid
  exact ⟨rfl, rfl⟩

end Scanner
